import Mathlib

/-!
Verification of the retrieval-and-fallback pipeline of the ai-agent-mvp
repository (chat orchestrator, knowledge-base service, search service).

The embedding is shallow: each Python function of the pipeline becomes a
total Lean function over explicit inputs.  External effects (the ChromaDB
similarity query, the HTTP calls to the three downstream services, the
live DuckDuckGo backend) are passed in as parameters describing the
observed behaviour of that call:

* a call that raises an exception that its caller does not handle locally
  is `Except.error ()`;
* a handled transport failure (`requests.RequestException`, non-200
  status) is `Except.ok none`;
* a parsed JSON response is `Except.ok (some r)`.

Python floats (ChromaDB distances) are modelled as rationals; Python
string slices `s[:n]` are `String.take n`; `dict.get(k, d)` on an
optional field is `Option.getD`.  Only the ASCII fragment of Python's
`str.lower`, `str.title`, `\w` and `\s` is modelled, which covers every
string literal of the repository.
-/

/-- The whitespace class stripped by Python `str.strip()` and matched by
the regex class `\s` (ASCII fragment): space, tab, newline, carriage
return, vertical tab, form feed. -/
def isPySpace (c : Char) : Bool :=
  c = ' ' || c = '\t' || c = '\n' || c = '\x0d' || c = Char.ofNat 11 || c = Char.ofNat 12

/-- Python `str.strip()`: drop leading and trailing whitespace. -/
def pyStrip (s : String) : String :=
  ⟨((s.data.dropWhile isPySpace).reverse.dropWhile isPySpace).reverse⟩

/-- Python `str.lower()` (ASCII fragment). -/
def pyLower (s : String) : String :=
  ⟨s.data.map Char.toLower⟩

namespace KB

/-- Document metadata as stored in ChromaDB: the fields the service reads
(`category`, `source`), each possibly absent. -/
structure Meta where
  category : Option String
  source : Option String
deriving DecidableEq

/-- One entry of the `sources` list built by `KnowledgeBaseService.query`. -/
structure Source where
  rank : Nat
  content : String
  metadata : Meta
  similarityScore : ℚ
deriving DecidableEq

/-- The JSON object returned by `KnowledgeBaseService.query`
(src/knowledge_base_service/main.py).  `reason` and `totalResults` are
present only on some branches, hence optional. -/
structure QueryResult where
  found : Bool
  answer : Option String
  sources : List Source
  query : String
  reason : Option String
  totalResults : Option Nat
deriving DecidableEq

/-- `similarity_threshold = 0.7` (src/knowledge_base_service/main.py line 149). -/
def similarityThreshold : ℚ := 7 / 10

/-- One labelled excerpt of `_format_answer`:
`f"[{metadata.get('category', 'General')}] {doc[:150]}..."`.
Note the `"..."` is appended unconditionally. -/
def excerptOf (doc : String) (md : Meta) : String :=
  "[" ++ md.category.getD "General" ++ "] " ++ doc.take 150 ++ "..."

/-- `KnowledgeBaseService._format_answer(documents, metadatas, query)`.
The `query` argument is accepted but unused, as in the source. -/
def formatAnswer (documents : List String) (metadatas : List Meta)
    (queryText : String) : String :=
  match documents with
  | [] => "I couldn't find relevant information in the knowledge base."
  | primary :: rest =>
    if 1 < (primary :: rest).length then
      let additionalContext := (rest.zip (metadatas.drop 1)).map fun p => excerptOf p.1 p.2
      if additionalContext = [] then primary
      else
        primary ++ "\n\nAdditional related information:\n" ++
          String.intercalate "\n" additionalContext
    else primary

/-- Source content shown in the `sources` list:
`doc[:200] + "..." if len(doc) > 200 else doc`. -/
def truncateContent (doc : String) : String :=
  if 200 < doc.length then doc.take 200 ++ "..." else doc

/-- `KnowledgeBaseService.query(query_text, n_results)` after the ChromaDB
call returned the parallel lists `documents`, `metadatas`, `distances`
(the contents of `results['documents'][0]` etc.); the guard
`if not results['documents'] or not results['documents'][0]` collapses to
`documents = []` in this single-query model.  The `except` clause of the
source only fires on exceptions of the ChromaDB client, which is already
behind the `documents/metadatas/distances` parameters here. -/
def query (queryText : String) (documents : List String) (metadatas : List Meta)
    (distances : List ℚ) : QueryResult :=
  if documents = [] then
    ⟨false, none, [], queryText, none, none⟩
  else
    -- best_distance = distances[0] if distances else 1.0
    let bestDistance := distances.headD 1
    -- if best_distance > similarity_threshold: rejected
    if similarityThreshold < bestDistance then
      ⟨false, none, [], queryText, some "No sufficiently similar documents found", none⟩
    else
      let answer := formatAnswer documents metadatas queryText
      -- for i, (doc, metadata, distance) in enumerate(zip(documents, metadatas, distances))
      let sources := (List.enum (documents.zip (metadatas.zip distances))).map fun p =>
        ⟨p.1 + 1, truncateContent p.2.1, p.2.2.1, 1 - p.2.2.2⟩
      ⟨true, some answer, sources, queryText, none, some documents.length⟩

end KB

namespace Chat

/-- One element of the `results` list of a search-service JSON response,
as read by `_format_search_response` with `result.get(...)`: each field
may be absent. -/
structure WebResult where
  title : Option String
  snippet : Option String
  url : Option String
deriving DecidableEq

/-- A parsed search-service JSON response; `_format_search_response` only
reads its `results` key. -/
structure SearchData where
  results : List WebResult
deriving DecidableEq

/-- A parsed knowledge-base JSON response; `process_message` only reads
its `found` and `answer` keys.  `answer` is `none` when the key is
absent (so that `kb_response.get('answer', default)` yields the default). -/
structure KBResponse where
  found : Bool
  answer : Option String
deriving DecidableEq

/-- The outcome dict returned by `ChatOrchestrator.process_message`,
without the wall-clock `timestamp` field. -/
structure Outcome where
  response : String
  chat_id : String
  source : String
deriving DecidableEq

/-- The fixed apology sentence of the fallback branch
(src/chat_service/main.py line 64). -/
def fallbackApology : String :=
  "I'm sorry, I couldn't find information about that topic. Could you try rephrasing your question?"

/-- The fixed technical-difficulties sentence of the catch-all branch
(src/chat_service/main.py line 80). -/
def technicalDifficulties : String :=
  "I'm experiencing technical difficulties. Please try again later."

/-- The outcome built by the `except` clause of `process_message`. -/
def errorOutcome (cid : String) : Outcome :=
  ⟨technicalDifficulties, cid, "error"⟩

/-- `if not chat_id: chat_id = str(uuid.uuid4())` — the caller-supplied id
is kept unless it is absent or falsy (the empty string); `genId` stands
for the freshly generated UUID. -/
def resolveChatId (chatId : Option String) (genId : String) : String :=
  match chatId with
  | none => genId
  | some s => if s = "" then genId else s

/-- The body of the `for i, result in enumerate(results, 1)` loop of
`_format_search_response`: one numbered block, with the `Source:` line
present only when the url is non-empty. -/
def renderResult (i : Nat) (r : WebResult) : String :=
  let title := r.title.getD "No title"
  let snippet := r.snippet.getD "No description available"
  let url := r.url.getD ""
  toString i ++ ". **" ++ title ++ "**\n" ++ "   " ++ snippet ++ "\n" ++
    (if url ≠ "" then "   Source: " ++ url ++ "\n" else "") ++ "\n"

/-- The `for` loop of `_format_search_response`, accumulating the blocks
with the running number starting at `i`. -/
def renderResults : Nat → List WebResult → String
  | _, [] => ""
  | i, r :: rs => renderResult i r ++ renderResults (i + 1) rs

/-- `ChatOrchestrator._format_search_response(search_data, original_query)`.
At its call site `search_data` is a parsed (hence truthy) dict, so the
`not search_data` half of the guard reduces to the `results`-empty check. -/
def formatSearchResponse (searchData : SearchData) (originalQuery : String) : String :=
  if searchData.results = [] then
    "I couldn't find relevant information on the web."
  else
    pyStrip ("Based on web search results for '" ++ originalQuery ++ "':\n\n" ++
      renderResults 1 (searchData.results.take 3))

/-- Step 3 of the pipeline: `_store_interaction` swallows
`requests.RequestException` internally (`Except.ok ()`), so only an
unexpected exception (`Except.error ()`) reaches the catch-all. -/
def recordStep (cid responseText src : String) (recBeh : Except Unit Unit) : Outcome :=
  match recBeh with
  | .error _ => errorOutcome cid
  | .ok _ => ⟨responseText, cid, src⟩

/-- Step 2 of the pipeline: `_perform_web_search` yields `none` on a
handled transport failure or non-200 status, `some` on a parsed 200
response; `Except.error ()` is an unexpected exception. -/
def webStep (cid message : String) (webBeh : Except Unit (Option SearchData))
    (recBeh : Except Unit Unit) : Outcome :=
  match webBeh with
  | .error _ => errorOutcome cid
  | .ok (some searchResponse) =>
    recordStep cid (formatSearchResponse searchResponse message) "web_search" recBeh
  | .ok none => recordStep cid fallbackApology "fallback" recBeh

/-- `ChatOrchestrator.process_message(message, chat_id)`.  The behaviours
of the three downstream calls are the three `Except` parameters; `genId`
is the UUID generated when the caller supplies no (or an empty) chat id. -/
def processMessage (message : String) (chatId : Option String) (genId : String)
    (kbBeh : Except Unit (Option KBResponse))
    (webBeh : Except Unit (Option SearchData))
    (recBeh : Except Unit Unit) : Outcome :=
  let cid := resolveChatId chatId genId
  match kbBeh with
  | .error _ => errorOutcome cid
  | .ok (some r) =>
    -- if kb_response and kb_response.get('found')
    if r.found then
      recordStep cid
        (r.answer.getD "I found some information but cannot format it properly.")
        "knowledge_base" recBeh
    else webStep cid message webBeh recBeh
  | .ok none => webStep cid message webBeh recBeh

/-- Whether the knowledge-base stage behaviour leads to the accepted
branch of `process_message`. -/
def kbAccepted : Except Unit (Option KBResponse) → Bool
  | .ok (some r) => r.found
  | _ => false

/-- The JSON body of a POST /chat request: both keys optional. -/
structure ChatRequest where
  message : Option String
  chat_id : Option String
deriving DecidableEq

/-- What the /chat endpoint returns: a 400 protocol error or a 200
outcome. -/
inductive ChatHttpResult where
  | badRequest (error : String)
  | ok (outcome : Outcome)
deriving DecidableEq

/-- The `chat()` endpoint (src/chat_service/main.py lines 251-265):
`data = request.get_json()` is `none` when there is no parseable body;
`if not data or 'message' not in data` rejects a missing body, an empty
JSON object, or a body without the `message` key (all collapse to
`message = none` here), and everything else is handed to
`process_message`. -/
def chatEndpoint (data : Option ChatRequest) (genId : String)
    (kbBeh : Except Unit (Option KBResponse))
    (webBeh : Except Unit (Option SearchData))
    (recBeh : Except Unit Unit) : ChatHttpResult :=
  match data with
  | none => .badRequest "Message is required"
  | some d =>
    match d.message with
    | none => .badRequest "Message is required"
    | some msg => .ok (processMessage msg d.chat_id genId kbBeh webBeh recBeh)

end Chat

namespace Search

/-- One search result of the search service; all branches of the service
construct all four fields. -/
structure Result where
  title : String
  snippet : String
  url : String
  source : String
deriving DecidableEq

/-- The JSON object returned by `SearchService.search`. -/
structure SearchOutcome where
  success : Bool
  results : List Result
  query : String
  error : Option String
deriving DecidableEq

/-- Python `str.title()` (ASCII fragment): the first alphabetic character
of each alphabetic run is uppercased, the rest lowercased. -/
def titleMap : Bool → List Char → List Char
  | _, [] => []
  | prevCased, c :: cs =>
    if c.isAlpha then
      (if prevCased then c.toLower else c.toUpper) :: titleMap true cs
    else c :: titleMap false cs

/-- Python `str.title()` (ASCII fragment). -/
def pyTitle (s : String) : String :=
  ⟨titleMap false s.data⟩

/-- `query.replace(" ", "-").lower()`, used to build the mock urls. -/
def slugOf (s : String) : String :=
  pyLower ⟨s.data.map fun c => if c = ' ' then '-' else c⟩

/-- The regex class `\w` (ASCII fragment): alphanumeric or underscore. -/
def isWordChar (c : Char) : Bool :=
  c.isAlphanum || c = '_'

/-- The character class kept by `re.sub(r'[^\w\s\-\+]', '', ...)`. -/
def keepChar (c : Char) : Bool :=
  isWordChar c || isPySpace c || c = '-' || c = '+'

/-- `re.sub(r'\s+', ' ', ...)`: every maximal whitespace run becomes one
space. -/
def collapseWs : Bool → List Char → List Char
  | _, [] => []
  | prevWs, c :: cs =>
    if isPySpace c then
      (if prevWs then [] else [' ']) ++ collapseWs true cs
    else c :: collapseWs false cs

/-- `SearchService._sanitize_query(query)`: strip, drop characters outside
`[\w\s\-\+]`, collapse whitespace runs, cap at 200 characters.  The
`not isinstance(query, str)` guard is vacuous here since the input is a
string. -/
def sanitizeQuery (query : String) : String :=
  (String.mk (collapseWs false ((pyStrip query).data.filter keepChar))).take 200

/-- `ai_keywords` of `_get_mock_results`. -/
def aiKeywords : List String :=
  ["ai", "artificial intelligence", "machine learning", "deep learning", "neural network"]

/-- `tech_keywords` of `_get_mock_results`. -/
def techKeywords : List String :=
  ["programming", "coding", "software", "development", "computer"]

/-- `science_keywords` of `_get_mock_results`; assigned in the source but
never consulted by any branch. -/
def scienceKeywords : List String :=
  ["science", "research", "technology", "innovation"]

/-- Whether `needle` occurs at the start of `hay`. -/
def matchesAt : List Char → List Char → Bool
  | [], _ => true
  | _ :: _, [] => false
  | c :: cs, d :: ds => c == d && matchesAt cs ds

/-- Whether `needle` occurs contiguously anywhere in `hay`. -/
def occursIn (needle : List Char) : List Char → Bool
  | [] => needle.isEmpty
  | d :: ds => matchesAt needle (d :: ds) || occursIn needle ds

/-- Python substring containment `needle in hay`. -/
def containsSub (hay needle : String) : Bool :=
  occursIn needle.data hay.data

/-- `SearchService._get_mock_results(query)`: keyword-dependent mock
result lists, capped to the first three. -/
def getMockResults (query : String) : List Result :=
  let queryLower := pyLower query
  let mockResults :=
    if aiKeywords.any (fun k => containsSub queryLower k) then
      [⟨"Understanding " ++ pyTitle query ++ ": A Comprehensive Guide",
        "Learn about " ++ query ++ " and its applications in modern technology. This comprehensive guide covers the fundamentals, applications, and future prospects of " ++ query ++ ".",
        "https://example.com/guide-to-" ++ slugOf query,
        "Mock Search Result"⟩,
       ⟨pyTitle query ++ " in 2024: Latest Trends and Developments",
        "Explore the latest trends in " ++ query ++ ". Industry experts share insights about current developments and future directions in this rapidly evolving field.",
        "https://example.com/trends-" ++ slugOf query ++ "-2024",
        "Mock Search Result"⟩,
       ⟨"Practical Applications of " ++ pyTitle query,
        "Discover real-world applications of " ++ query ++ " across various industries. From healthcare to finance, see how " ++ query ++ " is transforming different sectors.",
        "https://example.com/applications-" ++ slugOf query,
        "Mock Search Result"⟩]
    else if techKeywords.any (fun k => containsSub queryLower k) then
      [⟨pyTitle query ++ ": Best Practices and Tips",
        "Master " ++ query ++ " with these expert tips and best practices. Learn from experienced professionals and improve your skills.",
        "https://example.com/best-practices-" ++ slugOf query,
        "Mock Search Result"⟩,
       ⟨"Getting Started with " ++ pyTitle query,
        "A beginner-friendly introduction to " ++ query ++ ". Step-by-step guide to help you get started with the fundamentals.",
        "https://example.com/getting-started-" ++ slugOf query,
        "Mock Search Result"⟩]
    else
      [⟨"Everything You Need to Know About " ++ pyTitle query,
        "Comprehensive information about " ++ query ++ ". Find answers to your questions and learn more about this topic.",
        "https://example.com/about-" ++ slugOf query,
        "Mock Search Result"⟩,
       ⟨pyTitle query ++ ": FAQ and Common Questions",
        "Frequently asked questions about " ++ query ++ ". Get quick answers to the most common queries related to this topic.",
        "https://example.com/faq-" ++ slugOf query,
        "Mock Search Result"⟩]
  mockResults.take 3

/-- `SearchService.search(query, max_results)` after the live DuckDuckGo
lookup (`_search_duckduckgo`, whose internal exceptions are caught and
yield `[]`) returned `liveResults`.  The outer `except` clause of the
source only fires on exceptions of that lookup, which is already behind
the `liveResults` parameter here. -/
def search (query : String) (liveResults : List Result) : SearchOutcome :=
  let cleanQuery := sanitizeQuery query
  if cleanQuery = "" then
    ⟨false, [], query, some "Invalid query"⟩
  else
    let results := if liveResults = [] then getMockResults query else liveResults
    ⟨true, results, query, none⟩

end Search

/-! ### Helper lemmas -/

theorem pyStrip_ne_empty {s : String} {c : Char} (hc : c ∈ s.data)
    (hpc : isPySpace c = false) : pyStrip s ≠ "" := by
  intro h
  have hl : ((s.data.dropWhile isPySpace).reverse.dropWhile isPySpace).reverse = [] :=
    congrArg String.data h
  rw [List.reverse_eq_nil_iff, List.dropWhile_eq_nil_iff] at hl
  have h1 : s.data.dropWhile isPySpace ≠ [] := by
    rw [Ne, List.dropWhile_eq_nil_iff]
    intro hall
    rw [hall c hc] at hpc
    exact Bool.noConfusion hpc
  have h2 := List.head_dropWhile_not isPySpace s.data h1
  have h3 : (s.data.dropWhile isPySpace).head h1 ∈ (s.data.dropWhile isPySpace).reverse := by
    rw [List.mem_reverse]
    exact List.head_mem h1
  have h4 := hl _ h3
  rw [h2] at h4
  exact Bool.noConfusion h4

theorem KB.formatAnswer_cons (d : String) (rest : List String) (m : KB.Meta)
    (ms : List KB.Meta) (queryText : String) (hlen : ms.length = rest.length)
    (h : rest ≠ []) :
    KB.formatAnswer (d :: rest) (m :: ms) queryText
      = d ++ "\n\nAdditional related information:\n" ++
          String.intercalate "\n" ((rest.zip ms).map fun p => KB.excerptOf p.1 p.2) := by
  have hz : rest.zip ms ≠ [] := by
    rcases rest with _ | ⟨r0, rs⟩
    · exact absurd rfl h
    · rcases ms with _ | ⟨m0, ms'⟩
      · exact absurd hlen.symm (by simp)
      · simp [List.zip]
  have hmap : ((rest.zip ms).map fun p => KB.excerptOf p.1 p.2) ≠ [] := by
    simpa using hz
  have hlt : 1 < (d :: rest).length :=
    Nat.succ_lt_succ (List.length_pos.mpr h)
  simp only [KB.formatAnswer, List.drop_one, List.tail_cons]
  rw [if_pos hlt, if_neg hmap]

theorem formatSearchResponse_ne_empty (sd : Chat.SearchData) (q : String) :
    Chat.formatSearchResponse sd q ≠ "" := by
  unfold Chat.formatSearchResponse
  split
  · decide
  · apply pyStrip_ne_empty (c := 'B')
    · simp only [String.data_append, List.mem_append]
      refine Or.inl (Or.inl (Or.inl ?_))
      decide
    · decide

/-! ### C1 -/

/-- C1 (counterexample): a non-empty candidate list whose best distance is
exactly the 0.7 threshold is ACCEPTED by `KnowledgeBaseService.query`
(`found = true`), because the code only rejects on `best_distance > 0.7`;
the claim asserts it is rejected. -/
theorem KB.query_tie_counterexample :
    (KB.query "q" ["alpha document"] [⟨some "AI Basics", some "knowledge_base"⟩]
      [(7 : ℚ) / 10]).found = true := by
  norm_num [KB.query, KB.similarityThreshold]

/-- C1 (amended): a best distance exactly at the threshold is accepted —
the code rejects only on a distance strictly greater than 0.7, so a tie
at the boundary yields `found = true`. -/
theorem KB.query_tie_at_threshold_accepted (queryText : String)
    (documents : List String) (metadatas : List KB.Meta) (distances : List ℚ)
    (hne : documents ≠ [])
    (htie : distances.headD 1 = KB.similarityThreshold) :
    (KB.query queryText documents metadatas distances).found = true := by
  have hcond : ¬ (KB.similarityThreshold < distances.headD 1) := by
    rw [htie]
    exact lt_irrefl _
  simp only [KB.query, if_neg hne, if_neg hcond]

/-- Witness for C1's amended theorem at a concrete tie input. -/
theorem KB.query_tie_at_threshold_accepted_witness :
    (KB.query "what is ai" ["beta document"] [⟨none, none⟩] [(7 : ℚ) / 10]).found = true :=
  KB.query_tie_at_threshold_accepted "what is ai" ["beta document"] [⟨none, none⟩]
    [(7 : ℚ) / 10] (by decide) (by norm_num [List.headD, KB.similarityThreshold])

/-! ### C5 -/

/-- C5 (counterexample): a chat request whose message is the empty string
(or whitespace-only) is NOT rejected at the boundary — `chat()` only
checks for a missing `message` key, so the pipeline runs and produces an
ordinary outcome. -/
theorem Chat.emptyMessage_not_rejected_counterexample :
    Chat.chatEndpoint (some ⟨some "", none⟩) "g" (.ok none) (.ok none) (.ok ())
      = .ok ⟨Chat.fallbackApology, "g", "fallback"⟩
    ∧ Chat.chatEndpoint (some ⟨some "   ", none⟩) "g" (.ok none) (.ok none) (.ok ())
      = .ok ⟨Chat.fallbackApology, "g", "fallback"⟩ :=
  ⟨rfl, rfl⟩

/-- C5 (amended): the /chat boundary rejects exactly the requests with no
parseable body or no `message` key (with the `Message is required`
error); any request that carries a `message` key — including the empty
or whitespace-only string — enters `process_message` unchanged. -/
theorem Chat.chatEndpoint_boundary (genId : String)
    (kbBeh : Except Unit (Option Chat.KBResponse))
    (webBeh : Except Unit (Option Chat.SearchData))
    (recBeh : Except Unit Unit) (cidOpt : Option String) (msg : String) :
    Chat.chatEndpoint none genId kbBeh webBeh recBeh = .badRequest "Message is required"
    ∧ Chat.chatEndpoint (some ⟨none, cidOpt⟩) genId kbBeh webBeh recBeh
        = .badRequest "Message is required"
    ∧ Chat.chatEndpoint (some ⟨some msg, cidOpt⟩) genId kbBeh webBeh recBeh
        = .ok (Chat.processMessage msg cidOpt genId kbBeh webBeh recBeh) :=
  ⟨rfl, rfl, rfl⟩

/-! ### C2 -/

/-- C2 (counterexample): when the web stage is entered and the provider
responds successfully with an EMPTY result set, the outcome source is
`web_search` (not `fallback`) and the text is the distinct
`couldn't find relevant information on the web` sentence (not the fixed
apology) — so transport failure and empty results are NOT treated
identically. -/
theorem Chat.emptyResults_not_fallback_counterexample :
    (Chat.processMessage "m" none "gid" (.ok none) (.ok (some ⟨[]⟩)) (.ok ())).source
        ≠ "fallback"
    ∧ (Chat.processMessage "m" none "gid" (.ok none) (.ok (some ⟨[]⟩)) (.ok ())).response
        ≠ Chat.fallbackApology := by
  constructor
  · decide
  · intro h
    exact absurd (congrArg String.data h) (by decide)

/-- C2 (amended): with the knowledge-base stage not accepting, a
transport failure / non-200 from the search provider yields source
`fallback` with the fixed apology, while a successful response with an
empty result set yields source `web_search` with the distinct sentence
`I couldn't find relevant information on the web.` — the two cases
diverge. -/
theorem Chat.webFailure_vs_emptyResults (message : String) (chatId : Option String)
    (genId : String) (kr : Option Chat.KBResponse)
    (hkr : Chat.kbAccepted (.ok kr) = false) :
    Chat.processMessage message chatId genId (.ok kr) (.ok none) (.ok ())
      = ⟨Chat.fallbackApology, Chat.resolveChatId chatId genId, "fallback"⟩
    ∧ ∀ sd : Chat.SearchData, sd.results = [] →
        Chat.processMessage message chatId genId (.ok kr) (.ok (some sd)) (.ok ())
          = ⟨"I couldn't find relevant information on the web.",
             Chat.resolveChatId chatId genId, "web_search"⟩ := by
  rcases kr with _ | r
  · exact ⟨rfl, fun sd hsd => by
      simp [Chat.processMessage, Chat.webStep, Chat.recordStep,
        Chat.formatSearchResponse, hsd]⟩
  · have hf : r.found = false := by simpa [Chat.kbAccepted] using hkr
    constructor
    · simp [Chat.processMessage, Chat.webStep, Chat.recordStep, hf]
    · intro sd hsd
      simp [Chat.processMessage, Chat.webStep, Chat.recordStep,
        Chat.formatSearchResponse, hf, hsd]

/-- Witness for C2's amended theorem at concrete inputs. -/
theorem Chat.webFailure_vs_emptyResults_witness :
    Chat.processMessage "m" none "g" (.ok none) (.ok none) (.ok ())
      = ⟨Chat.fallbackApology, "g", "fallback"⟩
    ∧ Chat.processMessage "m" none "g" (.ok none) (.ok (some ⟨[]⟩)) (.ok ())
      = ⟨"I couldn't find relevant information on the web.", "g", "web_search"⟩ := by
  have h := Chat.webFailure_vs_emptyResults "m" none "g" none rfl
  exact ⟨h.1, h.2 ⟨[]⟩ rfl⟩

/-! ### C3 -/

/-- C3 (confirmed): a handled transport/availability failure of the
knowledge-base call (`_query_knowledge_base` returns `None`) is processed
exactly like a rejected (`found = false`) response — the outcomes are
equal for every downstream behaviour — and the pipeline proceeds to the
web-search fallback: with the remaining stages not raising, the source is
`web_search` or `fallback`, never an error. -/
theorem Chat.kbFailure_failOpen (message : String) (chatId : Option String)
    (genId : String) (webBeh : Except Unit (Option Chat.SearchData))
    (recBeh : Except Unit Unit) (r : Chat.KBResponse) (hr : r.found = false) :
    Chat.processMessage message chatId genId (.ok none) webBeh recBeh
      = Chat.processMessage message chatId genId (.ok (some r)) webBeh recBeh
    ∧ ∀ sdOpt : Option Chat.SearchData,
        (Chat.processMessage message chatId genId (.ok none) (.ok sdOpt) (.ok ())).source
            = "web_search"
        ∨ (Chat.processMessage message chatId genId (.ok none) (.ok sdOpt) (.ok ())).source
            = "fallback" := by
  constructor
  · simp [Chat.processMessage, hr]
  · intro sdOpt
    rcases sdOpt with _ | sd
    · exact Or.inr rfl
    · exact Or.inl rfl

/-- Witness for C3 at a concrete rejected response. -/
theorem Chat.kbFailure_failOpen_witness :
    Chat.processMessage "m" none "g" (.ok none) (.ok none) (.ok ())
      = Chat.processMessage "m" none "g" (.ok (some ⟨false, none⟩)) (.ok none) (.ok ()) :=
  (Chat.kbFailure_failOpen "m" none "g" (.ok none) (.ok ()) ⟨false, none⟩ rfl).1

/-! ### C4 -/

/-- C4 (confirmed): `process_message` is total over every downstream
behaviour (it is a function into `Outcome`, so nothing is raised past its
boundary), the outcome always carries the resolved chat id, the error
outcome is precisely the fixed technical-difficulties text with source
`error`, and an unexpected exception in the knowledge-base stage, the
record stage, or (when it is reached) the web stage collapses to that
error outcome. -/
theorem Chat.processMessage_catchAll (message : String) (chatId : Option String)
    (genId : String) (kbBeh : Except Unit (Option Chat.KBResponse))
    (webBeh : Except Unit (Option Chat.SearchData)) (recBeh : Except Unit Unit) :
    (Chat.processMessage message chatId genId kbBeh webBeh recBeh).chat_id
        = Chat.resolveChatId chatId genId
    ∧ Chat.errorOutcome (Chat.resolveChatId chatId genId)
        = ⟨Chat.technicalDifficulties, Chat.resolveChatId chatId genId, "error"⟩
    ∧ (kbBeh = .error () →
        Chat.processMessage message chatId genId kbBeh webBeh recBeh
          = Chat.errorOutcome (Chat.resolveChatId chatId genId))
    ∧ (recBeh = .error () →
        Chat.processMessage message chatId genId kbBeh webBeh recBeh
          = Chat.errorOutcome (Chat.resolveChatId chatId genId))
    ∧ (webBeh = .error () → Chat.kbAccepted kbBeh = false →
        Chat.processMessage message chatId genId kbBeh webBeh recBeh
          = Chat.errorOutcome (Chat.resolveChatId chatId genId)) := by
  rcases kbBeh with ⟨⟨⟩⟩ | (_ | r) <;>
    rcases webBeh with ⟨⟨⟩⟩ | (_ | sd) <;>
      rcases recBeh with ⟨⟨⟩⟩ | ⟨⟩ <;>
        first
        | (simp [Chat.processMessage, Chat.webStep, Chat.recordStep,
            Chat.kbAccepted, Chat.errorOutcome]; done)
        | (cases hr : r.found <;>
            simp [Chat.processMessage, Chat.webStep, Chat.recordStep,
              Chat.kbAccepted, Chat.errorOutcome, hr])

/-- Witness for C4: a knowledge-base stage exception at a concrete input
collapses to the error outcome. -/
theorem Chat.processMessage_catchAll_witness :
    Chat.processMessage "m" (some "c") "g" (.error ()) (.ok none) (.ok ())
      = Chat.errorOutcome "c" :=
  (Chat.processMessage_catchAll "m" (some "c") "g" (.error ()) (.ok none) (.ok ())).2.2.1 rfl

/-! ### C7 -/

set_option maxRecDepth 8000 in
/-- C7 (counterexample): the excerpt of an additional document carries the
`...` marker even when the text (here 4 characters, far below the
150-character bound) was NOT shortened — contradicting `marker present
exactly when the text was shortened`. -/
theorem KB.formatAnswer_marker_counterexample :
    KB.formatAnswer ["primary text", "tiny"] [⟨some "A", none⟩, ⟨some "B", none⟩] "q"
      = "primary text\n\nAdditional related information:\n[B] tiny..."
    ∧ "tiny".length ≤ 150 := by
  constructor
  · rfl
  · decide

/-- C7 (amended): for a non-empty document list with parallel metadata,
the top document's text is returned verbatim (alone when it is the only
one), every additional document contributes exactly one labelled excerpt
(category tag plus the 150-character prefix) in input order under the
related-information section, and the `...` marker is appended to every
excerpt unconditionally — whether or not the text was shortened. -/
theorem KB.formatAnswer_structure (d : String) (rest : List String) (m : KB.Meta)
    (ms : List KB.Meta) (queryText : String) (hlen : ms.length = rest.length) :
    (rest = [] → KB.formatAnswer (d :: rest) (m :: ms) queryText = d)
    ∧ (rest ≠ [] →
        KB.formatAnswer (d :: rest) (m :: ms) queryText
          = d ++ "\n\nAdditional related information:\n" ++
              String.intercalate "\n" ((rest.zip ms).map fun p => KB.excerptOf p.1 p.2))
    ∧ ((rest.zip ms).map fun p => KB.excerptOf p.1 p.2).length = rest.length
    ∧ ∀ (doc : String) (md : KB.Meta),
        (KB.excerptOf doc md).data
          = ("[" ++ md.category.getD "General" ++ "] ").data ++ (doc.take 150).data
              ++ ['.', '.', '.'] := by
  refine ⟨?_, ?_, ?_, ?_⟩
  · intro h
    subst h
    rfl
  · intro h
    exact KB.formatAnswer_cons d rest m ms queryText hlen h
  · rw [List.length_map, List.length_zip, hlen, min_self]
  · intro doc md
    simp [KB.excerptOf, String.data_append, List.append_assoc]

set_option maxRecDepth 8000 in
/-- Witness for C7's amended theorem at a concrete two-document input. -/
theorem KB.formatAnswer_structure_witness :
    KB.formatAnswer ["primary", "extra"] [⟨none, none⟩, ⟨some "X", none⟩] "q"
      = "primary\n\nAdditional related information:\n[X] extra..." := by
  have h := KB.formatAnswer_structure "primary" ["extra"] ⟨none, none⟩
    [⟨some "X", none⟩] "q" rfl
  rw [h.2.1 (by decide)]
  rfl

/-! ### C8 -/

/-- The loop of `_format_search_response` as a fold over the
position-numbered result list: numbering starts at `i` and increases by
one per rendered result. -/
theorem renderResults_eq_foldr (i : Nat) (l : List Chat.WebResult) :
    Chat.renderResults i l
      = List.foldr (fun p acc => Chat.renderResult p.1 p.2 ++ acc) ""
          (List.enumFrom i l) := by
  induction l generalizing i with
  | nil => rfl
  | cons r rs ih =>
    rw [List.enumFrom_cons, List.foldr_cons]
    simp [Chat.renderResults, ih]

/-- C8 (confirmed): web-path synthesis depends only on the first three
results (anything beyond the third appears in no form), renders them as
the sequentially numbered blocks starting at 1 (via the position-numbered
fold), each block shows the title, the snippet and the source URL, and
the URL line is omitted exactly when the url field is absent or empty. -/
theorem Chat.formatSearchResponse_top3 (results : List Chat.WebResult) (q : String)
    (hne : results ≠ []) :
    Chat.formatSearchResponse ⟨results⟩ q = Chat.formatSearchResponse ⟨results.take 3⟩ q
    ∧ Chat.formatSearchResponse ⟨results⟩ q
        = pyStrip ("Based on web search results for '" ++ q ++ "':\n\n" ++
            List.foldr (fun p acc => Chat.renderResult p.1 p.2 ++ acc) ""
              (List.enumFrom 1 (results.take 3)))
    ∧ (∀ (i : Nat) (r : Chat.WebResult),
        Chat.renderResult i r
          = toString i ++ ". **" ++ r.title.getD "No title" ++ "**\n" ++ "   "
              ++ r.snippet.getD "No description available" ++ "\n"
              ++ (if r.url.getD "" ≠ "" then "   Source: " ++ r.url.getD "" ++ "\n"
                  else "")
              ++ "\n")
    ∧ ∀ r : Chat.WebResult, (r.url = none ∨ r.url = some "") ↔ r.url.getD "" = "" := by
  have htake : results.take 3 ≠ [] := by
    simp [List.take_eq_nil_iff, hne]
  refine ⟨?_, ?_, ?_, ?_⟩
  · simp only [Chat.formatSearchResponse]
    rw [if_neg hne, if_neg htake]
    simp [List.take_take]
  · simp only [Chat.formatSearchResponse]
    rw [if_neg hne, renderResults_eq_foldr]
  · intro i r
    rfl
  · intro r
    rcases hu : r.url with _ | s <;> simp [hu]

/-- Witness for C8 at a concrete four-result input: the fourth result
does not influence the output. -/
theorem Chat.formatSearchResponse_top3_witness :
    Chat.formatSearchResponse
        ⟨[⟨some "T1", some "S1", some "u1"⟩, ⟨some "T2", some "S2", none⟩,
          ⟨some "T3", some "S3", some ""⟩, ⟨some "T4", some "S4", some "u4"⟩]⟩ "q"
      = Chat.formatSearchResponse
          ⟨[⟨some "T1", some "S1", some "u1"⟩, ⟨some "T2", some "S2", none⟩,
            ⟨some "T3", some "S3", some ""⟩]⟩ "q" :=
  (Chat.formatSearchResponse_top3
    [⟨some "T1", some "S1", some "u1"⟩, ⟨some "T2", some "S2", none⟩,
     ⟨some "T3", some "S3", some ""⟩, ⟨some "T4", some "S4", some "u4"⟩] "q"
    (by decide)).1

/-! ### C6 -/

/-- The ranks produced by enumerating a list from 0 and adding 1 are
exactly `1, 2, ..., length`. -/
theorem enum_map_fst_add_one {α : Type} (l : List α) :
    (List.enum l).map (fun p => p.1 + 1) = List.range' 1 l.length := by
  have h1 : (fun p : Nat × α => p.1 + 1) = (fun n => n + 1) ∘ Prod.fst := rfl
  rw [h1, ← List.map_map, List.enum_map_fst, List.range'_eq_map_range]
  exact List.map_congr_left fun a _ => Nat.add_comm a 1

/-- Mapping a function of the value component over an enumerated list is
mapping it over the list itself. -/
theorem enum_map_val {α β : Type} (l : List α) (g : α → β) :
    (List.enum l).map (fun p => g p.2) = l.map g := by
  have h1 : (fun p : Nat × α => g p.2) = g ∘ Prod.snd := rfl
  rw [h1, ← List.map_map, List.enum_map_snd]

/-- C6 (confirmed): when the best distance is strictly below the 0.7
threshold (similarity strictly above the acceptance boundary), the
knowledge-base query accepts and carries the entire candidate list
forward in input order: the answer is the synthesis of all documents —
for more than one document, the top text verbatim plus one excerpt per
additional document in input order — and the sources list ranks all
candidates 1..n in input order with their metadata and (truncated)
content. -/
theorem KB.query_accept_carries_all (queryText : String) (documents : List String)
    (metadatas : List KB.Meta) (distances : List ℚ)
    (hne : documents ≠ [])
    (hm : metadatas.length = documents.length)
    (hd : distances.length = documents.length)
    (hbest : distances.headD 1 < KB.similarityThreshold) :
    (KB.query queryText documents metadatas distances).found = true
    ∧ (KB.query queryText documents metadatas distances).answer
        = some (KB.formatAnswer documents metadatas queryText)
    ∧ (KB.query queryText documents metadatas distances).totalResults
        = some documents.length
    ∧ ((KB.query queryText documents metadatas distances).sources.map fun s => s.rank)
        = List.range' 1 documents.length
    ∧ ((KB.query queryText documents metadatas distances).sources.map fun s => s.metadata)
        = metadatas
    ∧ ((KB.query queryText documents metadatas distances).sources.map fun s => s.content)
        = documents.map KB.truncateContent
    ∧ ∀ d rest, documents = d :: rest → rest ≠ [] →
        KB.formatAnswer documents metadatas queryText
          = d ++ "\n\nAdditional related information:\n" ++
              String.intercalate "\n"
                ((rest.zip (metadatas.drop 1)).map fun p => KB.excerptOf p.1 p.2) := by
  have hq : KB.query queryText documents metadatas distances
      = ⟨true, some (KB.formatAnswer documents metadatas queryText),
         (List.enum (documents.zip (metadatas.zip distances))).map fun p =>
           ⟨p.1 + 1, KB.truncateContent p.2.1, p.2.2.1, 1 - p.2.2.2⟩,
         queryText, none, some documents.length⟩ := by
    simp only [KB.query, if_neg hne, if_neg (lt_asymm hbest)]
  have hzlen : (documents.zip (metadatas.zip distances)).length = documents.length := by
    simp [List.length_zip, hm, hd]
  have hsnd : (documents.zip (metadatas.zip distances)).map Prod.snd
      = metadatas.zip distances := by
    refine List.map_snd_zip _ _ ?_
    rw [List.length_zip, hm, hd]
    exact le_of_eq (min_self _)
  have hfst : (documents.zip (metadatas.zip distances)).map Prod.fst = documents := by
    refine List.map_fst_zip _ _ ?_
    rw [List.length_zip, hm, hd]
    exact le_of_eq (min_self _).symm
  have hmfst : (metadatas.zip distances).map Prod.fst = metadatas :=
    List.map_fst_zip _ _ (by rw [hm, hd])
  refine ⟨by rw [hq], by rw [hq], by rw [hq], ?_, ?_, ?_, ?_⟩
  · rw [hq]
    show ((List.enum _).map _).map _ = _
    rw [List.map_map]
    have h2 := enum_map_fst_add_one (documents.zip (metadatas.zip distances))
    rw [hzlen] at h2
    exact h2
  · rw [hq]
    show ((List.enum _).map _).map _ = _
    rw [List.map_map]
    have h2 := enum_map_val (documents.zip (metadatas.zip distances))
      (fun t => t.2.1)
    refine h2.trans ?_
    have h3 : (fun t : String × KB.Meta × ℚ => t.2.1) = Prod.fst ∘ Prod.snd := rfl
    rw [h3, ← List.map_map, hsnd, hmfst]
  · rw [hq]
    show ((List.enum _).map _).map _ = _
    rw [List.map_map]
    have h2 := enum_map_val (documents.zip (metadatas.zip distances))
      (fun t => KB.truncateContent t.1)
    refine h2.trans ?_
    have h3 : (fun t : String × KB.Meta × ℚ => KB.truncateContent t.1)
        = KB.truncateContent ∘ Prod.fst := rfl
    rw [h3, ← List.map_map, hfst]
  · intro d rest hdoc hrest
    subst hdoc
    rcases metadatas with _ | ⟨m, ms⟩
    · exact absurd hm (by simp)
    · have hlen : ms.length = rest.length := by
        simpa using hm
      simpa using KB.formatAnswer_cons d rest m ms queryText hlen hrest

/-- Witness for C6 at a concrete accepted two-document query. -/
theorem KB.query_accept_carries_all_witness :
    (1 : ℚ) / 5 < KB.similarityThreshold
    ∧ (KB.query "q" ["alpha doc", "beta doc"]
        [⟨some "A", none⟩, ⟨some "B", none⟩] [1 / 5, 2 / 5]).found = true
    ∧ ((KB.query "q" ["alpha doc", "beta doc"]
        [⟨some "A", none⟩, ⟨some "B", none⟩] [1 / 5, 2 / 5]).sources.map fun s => s.rank)
        = [1, 2] := by
  have h := KB.query_accept_carries_all "q" ["alpha doc", "beta doc"]
    [⟨some "A", none⟩, ⟨some "B", none⟩] [1 / 5, 2 / 5] (by decide) rfl rfl
    (by norm_num [List.headD, KB.similarityThreshold])
  refine ⟨by norm_num [KB.similarityThreshold], h.1, ?_⟩
  rw [h.2.2.2.1]
  rfl

/-! ### C9 -/

/-- C9 (counterexample): a downstream knowledge-base behaviour of
`{found: true, answer: ""}` yields an outcome with EMPTY answer text —
`kb_response.get('answer', default)` substitutes the default only when
the key is missing, not when it is empty — so the claim's `non-empty
answer text for every behaviour of the downstream stages` fails. -/
theorem Chat.emptyAnswer_counterexample :
    (Chat.processMessage "m" (some "c1") "g" (.ok (some ⟨true, some ""⟩))
      (.ok none) (.ok ())).response = "" :=
  rfl

/-- C9 (amended): the outcome source is always exactly one of
`knowledge_base`, `web_search`, `fallback`, `error`; and the answer text
is non-empty provided every accepted knowledge-base response carries a
non-empty (or missing, hence defaulted) `answer` field — without that
proviso the text can be empty, as the counterexample shows. -/
theorem Chat.processMessage_outcome_invariants (message : String)
    (chatId : Option String) (genId : String)
    (kbBeh : Except Unit (Option Chat.KBResponse))
    (webBeh : Except Unit (Option Chat.SearchData)) (recBeh : Except Unit Unit)
    (hkb : ∀ r : Chat.KBResponse, kbBeh = .ok (some r) → r.found = true →
      r.answer ≠ some "") :
    ((Chat.processMessage message chatId genId kbBeh webBeh recBeh).source
        = "knowledge_base"
      ∨ (Chat.processMessage message chatId genId kbBeh webBeh recBeh).source
        = "web_search"
      ∨ (Chat.processMessage message chatId genId kbBeh webBeh recBeh).source
        = "fallback"
      ∨ (Chat.processMessage message chatId genId kbBeh webBeh recBeh).source
        = "error")
    ∧ (Chat.processMessage message chatId genId kbBeh webBeh recBeh).response ≠ "" := by
  have htech : Chat.technicalDifficulties ≠ "" := by decide
  have hapology : Chat.fallbackApology ≠ "" := by decide
  rcases kbBeh with ⟨⟨⟩⟩ | (_ | r)
  · exact ⟨Or.inr (Or.inr (Or.inr rfl)), htech⟩
  · rcases webBeh with ⟨⟨⟩⟩ | (_ | sd)
    · exact ⟨Or.inr (Or.inr (Or.inr rfl)), htech⟩
    · rcases recBeh with ⟨⟨⟩⟩ | ⟨⟩
      · exact ⟨Or.inr (Or.inr (Or.inr rfl)), htech⟩
      · exact ⟨Or.inr (Or.inr (Or.inl rfl)), hapology⟩
    · rcases recBeh with ⟨⟨⟩⟩ | ⟨⟩
      · exact ⟨Or.inr (Or.inr (Or.inr rfl)), htech⟩
      · exact ⟨Or.inr (Or.inl rfl), formatSearchResponse_ne_empty sd message⟩
  · have hans := hkb r rfl
    cases hr : r.found
    · rcases webBeh with ⟨⟨⟩⟩ | (_ | sd)
      · refine ⟨Or.inr (Or.inr (Or.inr ?_)), ?_⟩ <;>
          simp [Chat.processMessage, Chat.webStep, hr, Chat.errorOutcome, htech,
            Chat.technicalDifficulties]
      · rcases recBeh with ⟨⟨⟩⟩ | ⟨⟩
        · refine ⟨Or.inr (Or.inr (Or.inr ?_)), ?_⟩ <;>
            simp [Chat.processMessage, Chat.webStep, Chat.recordStep, hr,
              Chat.errorOutcome, Chat.technicalDifficulties]
        · refine ⟨Or.inr (Or.inr (Or.inl ?_)), ?_⟩ <;>
            simp [Chat.processMessage, Chat.webStep, Chat.recordStep, hr,
              Chat.fallbackApology]
      · rcases recBeh with ⟨⟨⟩⟩ | ⟨⟩
        · refine ⟨Or.inr (Or.inr (Or.inr ?_)), ?_⟩ <;>
            simp [Chat.processMessage, Chat.webStep, Chat.recordStep, hr,
              Chat.errorOutcome, Chat.technicalDifficulties]
        · refine ⟨Or.inr (Or.inl ?_), ?_⟩
          · simp [Chat.processMessage, Chat.webStep, Chat.recordStep, hr]
          · simpa [Chat.processMessage, Chat.webStep, Chat.recordStep, hr]
              using formatSearchResponse_ne_empty sd message
    · rcases recBeh with ⟨⟨⟩⟩ | ⟨⟩
      · refine ⟨Or.inr (Or.inr (Or.inr ?_)), ?_⟩ <;>
          simp [Chat.processMessage, Chat.recordStep, hr, Chat.errorOutcome,
            Chat.technicalDifficulties]
      · refine ⟨Or.inl ?_, ?_⟩
        · simp [Chat.processMessage, Chat.recordStep, hr]
        · have hne : r.answer ≠ some "" := hans hr
          rcases ha : r.answer with _ | a
          · simp [Chat.processMessage, Chat.recordStep, hr, ha]
          · have ha2 : a ≠ "" := by
              intro h0
              rw [h0] at ha
              exact hne ha
            simpa [Chat.processMessage, Chat.recordStep, hr, ha] using ha2

/-- Witness for C9's amended theorem at a concrete input (knowledge base
unavailable, web search unavailable: fallback apology). -/
theorem Chat.processMessage_outcome_invariants_witness :
    ((Chat.processMessage "m" none "g" (.ok none) (.ok none) (.ok ())).source
        = "knowledge_base"
      ∨ (Chat.processMessage "m" none "g" (.ok none) (.ok none) (.ok ())).source
        = "web_search"
      ∨ (Chat.processMessage "m" none "g" (.ok none) (.ok none) (.ok ())).source
        = "fallback"
      ∨ (Chat.processMessage "m" none "g" (.ok none) (.ok none) (.ok ())).source
        = "error")
    ∧ (Chat.processMessage "m" none "g" (.ok none) (.ok none) (.ok ())).response ≠ "" :=
  Chat.processMessage_outcome_invariants "m" none "g" (.ok none) (.ok none) (.ok ())
    (by intro r hr; simp at hr)

/-! ### C10 -/

/-- Every branch of the mock-result generator yields at least two
results, all tagged `Mock Search Result`. -/
theorem getMockResults_spec (q : String) :
    2 ≤ (Search.getMockResults q).length
    ∧ ∀ r ∈ Search.getMockResults q, r.source = "Mock Search Result" := by
  simp only [Search.getMockResults]
  split
  · refine ⟨by simp, ?_⟩
    intro r hr
    have hr2 := List.take_subset 3 _ hr
    simp only [List.mem_cons, List.not_mem_nil, or_false] at hr2
    rcases hr2 with rfl | rfl | rfl <;> rfl
  · split
    · refine ⟨by simp, ?_⟩
      intro r hr
      have hr2 := List.take_subset 3 _ hr
      simp only [List.mem_cons, List.not_mem_nil, or_false] at hr2
      rcases hr2 with rfl | rfl <;> rfl
    · refine ⟨by simp, ?_⟩
      intro r hr
      have hr2 := List.take_subset 3 _ hr
      simp only [List.mem_cons, List.not_mem_nil, or_false] at hr2
      rcases hr2 with rfl | rfl <;> rfl

/-- C10 (confirmed): for a query whose sanitized form is non-empty, the
search operation reports success with a non-empty result list; the live
results are passed through when present, and when the live backend
yields nothing the mock results — at least two entries, each tagged
`Mock Search Result` — are substituted. -/
theorem Search.search_success_nonempty (query : String)
    (liveResults : List Search.Result)
    (hq : Search.sanitizeQuery query ≠ "") :
    (Search.search query liveResults).success = true
    ∧ (Search.search query liveResults).results ≠ []
    ∧ (liveResults = [] →
        (Search.search query liveResults).results = Search.getMockResults query)
    ∧ (liveResults ≠ [] →
        (Search.search query liveResults).results = liveResults)
    ∧ 2 ≤ (Search.getMockResults query).length
    ∧ ∀ r ∈ Search.getMockResults query, r.source = "Mock Search Result" := by
  have hmock := getMockResults_spec query
  have hmockne : Search.getMockResults query ≠ [] := by
    intro h0
    rw [h0] at hmock
    simp at hmock
  have hs : Search.search query liveResults
      = ⟨true, if liveResults = [] then Search.getMockResults query else liveResults,
         query, none⟩ := by
    simp only [Search.search, if_neg hq]
  by_cases hl : liveResults = []
  · subst hl
    refine ⟨by rw [hs], ?_, fun _ => by simp [hs], fun hcon => absurd rfl hcon,
      hmock.1, hmock.2⟩
    simpa [hs] using hmockne
  · refine ⟨by rw [hs], ?_, fun hcon => absurd hcon hl, fun _ => by simp [hs, hl],
      hmock.1, hmock.2⟩
    simp [hs, hl]

set_option maxRecDepth 8000 in
/-- Witness for C10 at a concrete query with no live backend results. -/
theorem Search.search_success_nonempty_witness :
    Search.sanitizeQuery "hello" ≠ ""
    ∧ (Search.search "hello" []).success = true
    ∧ (Search.search "hello" []).results ≠ [] := by
  have h := Search.search_success_nonempty "hello" [] (by decide)
  exact ⟨by decide, h.1, h.2.1⟩
